import Mathlib

/-!
Verification of the MCP client façade (`mcp_client.py`).

The façade class `MCPClient` wraps an external MCP client library.  We embed
its state as a record, model the external collaborator (stdio transport and
client session) as an environment of fallible response functions, and record
every call made on the external layer in a trace list.  Python's `json.loads`
is modelled by a fuel-based recursive-descent parser over the JSON fragment
the repository uses (integer numerals; floats are unused here).
-/

/-- Python-style structured values: the image of the standard JSON decoder.
A Python `str` return value is represented as `Json.str`. -/
inductive Json where
  | null : Json
  | bool : Bool → Json
  | num : Int → Json
  | str : String → Json
  | arr : List Json → Json
  | obj : List (String × Json) → Json

/-- Python exceptions that the façade's operations can surface. -/
inductive PyErr where
  | runtimeError (msg : String)
  | indexError (msg : String)
  | jsonDecodeError (msg : String)
  | extError (tag : String)
deriving Repr, DecidableEq

/-- A Python `Dict[str, Any]` argument mapping. -/
abbrev PyDict := List (String × Json)

/-- Drop leading JSON whitespace. -/
def skipWs (cs : List Char) : List Char :=
  cs.dropWhile (fun c => c == ' ' || c == '\t' || c == '\n' || c == '\r')

/-- Value of a non-empty digit run. -/
def natOfDigits (ds : List Char) : Nat :=
  ds.foldl (fun a c => a * 10 + (c.toNat - 48)) 0

/-- Parse a run of decimal digits. -/
def parseDigits (cs : List Char) : Option (Nat × List Char) :=
  let p := cs.span (fun c => c.isDigit)
  if p.1.isEmpty then none else some (natOfDigits p.1, p.2)

/-- Decode a single JSON string escape character. -/
def escChar : Char → Option Char
  | '"' => some '"'
  | '\\' => some '\\'
  | '/' => some '/'
  | 'b' => some (Char.ofNat 8)
  | 'f' => some (Char.ofNat 12)
  | 'n' => some '\n'
  | 'r' => some '\r'
  | 't' => some '\t'
  | _ => none

/-- Parse the body of a JSON string up to the closing quote. -/
def parseStrChars : List Char → Option (List Char × List Char)
  | [] => none
  | '"' :: rest => some ([], rest)
  | '\\' :: e :: rest => do
    let c ← escChar e
    let p ← parseStrChars rest
    some (c :: p.1, p.2)
  | c :: rest => do
    let p ← parseStrChars rest
    some (c :: p.1, p.2)

mutual

/-- Fuel-based JSON value parser (recursive descent, one value). -/
def pVal : Nat → List Char → Option (Json × List Char)
  | 0, _ => none
  | Nat.succ fuel, cs =>
    match skipWs cs with
    | 'n' :: 'u' :: 'l' :: 'l' :: r => some (Json.null, r)
    | 't' :: 'r' :: 'u' :: 'e' :: r => some (Json.bool true, r)
    | 'f' :: 'a' :: 'l' :: 's' :: 'e' :: r => some (Json.bool false, r)
    | '"' :: r => do
      let p ← parseStrChars r
      some (Json.str (String.mk p.1), p.2)
    | '[' :: r =>
      (match skipWs r with
       | ']' :: r2 => some (Json.arr [], r2)
       | r1 => do
         let p ← pArrItems fuel r1
         some (Json.arr p.1, p.2))
    | '\x7b' :: r =>
      (match skipWs r with
       | '\x7d' :: r2 => some (Json.obj [], r2)
       | r1 => do
         let p ← pObjItems fuel r1
         some (Json.obj p.1, p.2))
    | '-' :: r => do
      let p ← parseDigits r
      some (Json.num (-(p.1 : Int)), p.2)
    | c :: r =>
      if c.isDigit then do
        let p ← parseDigits (c :: r)
        some (Json.num (p.1 : Int), p.2)
      else none
    | [] => none

/-- Comma-separated JSON array items followed by the closing bracket. -/
def pArrItems : Nat → List Char → Option (List Json × List Char)
  | 0, _ => none
  | Nat.succ fuel, cs => do
    let p ← pVal fuel cs
    match skipWs p.2 with
    | ',' :: r2 => do
      let q ← pArrItems fuel r2
      some (p.1 :: q.1, q.2)
    | ']' :: r2 => some ([p.1], r2)
    | _ => none

/-- Comma-separated JSON object members followed by the closing brace. -/
def pObjItems : Nat → List Char → Option (List (String × Json) × List Char)
  | 0, _ => none
  | Nat.succ fuel, cs =>
    match skipWs cs with
    | '"' :: r => do
      let k ← parseStrChars r
      match skipWs k.2 with
      | ':' :: r3 => do
        let v ← pVal fuel r3
        match skipWs v.2 with
        | ',' :: r6 => do
          let q ← pObjItems fuel r6
          some ((String.mk k.1, v.1) :: q.1, q.2)
        | '\x7d' :: r6 => some ([(String.mk k.1, v.1)], r6)
        | _ => none
      | _ => none
    | _ => none

end

/-- Model of Python's `json.loads`: parse one JSON document, reject trailing
garbage, raise a decode error otherwise. -/
def jsonLoads (s : String) : Except PyErr Json :=
  match pVal (s.length + 1) s.data with
  | some (v, rest) =>
    if (skipWs rest).isEmpty then Except.ok v
    else Except.error (PyErr.jsonDecodeError "Extra data")
  | none => Except.error (PyErr.jsonDecodeError "Expecting value")

/-- Opaque identifier for a live `ClientSession` object. -/
abbrev Session := Nat

/-- Opaque identifier for a stdio-client transport handle. -/
abbrev StdioClient := Nat

/-- `StdioServerParameters(command=..., args=...)`. -/
structure StdioServerParameters where
  command : String
  args : List String
deriving Repr, DecidableEq

/-- State of the `MCPClient` façade: the three instance fields set by
`__init__` (`server_script_path`, `session = None`, `_stdio_client = None`). -/
structure MCPClient where
  server_script_path : String
  session : Option Session
  _stdio_client : Option StdioClient
deriving Repr, DecidableEq

/-- `MCPClient.__init__(server_script_path)`. -/
def MCPClient.new (server_script_path : String) : MCPClient :=
  { server_script_path := server_script_path, session := none, _stdio_client := none }

/-- One call made on the external transport or client session library. -/
inductive ExtCall where
  | stdioEnter (client : StdioClient)
  | stdioExit (client : StdioClient)
  | initCall (sess : Session)
  | listToolsCall (sess : Session)
  | callToolCall (sess : Session) (tool_name : String) (tool_input : PyDict)
  | readResourceCall (sess : Session) (uri : String)
  | listPromptsCall (sess : Session)
  | getPromptCall (sess : Session) (prompt_name : String) (arguments : PyDict)

/-- `result.contents[i]` items of a resource read: `mime_type`, `text`. -/
structure ResourceContent where
  mime_type : String
  text : String
deriving Repr, DecidableEq

/-- Response of `session.read_resource`: a `contents` list. -/
structure ReadResourceResult where
  contents : List ResourceContent
deriving Repr, DecidableEq

/-- Response of `session.list_tools`: a `tools` field, opaque descriptors. -/
structure ListToolsResult (Tool : Type) where
  tools : List Tool

/-- Response of `session.list_prompts`: a `prompts` field, opaque descriptors. -/
structure ListPromptsResult (Prompt : Type) where
  prompts : List Prompt

/-- Response of `session.get_prompt`: a `messages` field, opaque messages. -/
structure GetPromptResult (Message : Type) where
  messages : List Message

/-- Behaviour of the external collaborator for one façade operation call:
the stdio transport (creation, enter, exit) and the bound client session's
request methods, each fallible.  `Tool`, `ToolResult`, `Prompt` and `Message`
are the payload types the façade passes through unmodified. -/
structure Env (Tool ToolResult Prompt Message : Type) where
  new_stdio_client : StdioServerParameters → StdioClient
  stdio_aenter : Except PyErr Session
  stdio_aexit : StdioClient → Except PyErr Unit
  session_init : Session → Except PyErr Unit
  session_list_tools : Session → Except PyErr (ListToolsResult Tool)
  session_call_tool : Session → String → PyDict → Except PyErr ToolResult
  session_read_resource : Session → String → Except PyErr ReadResourceResult
  session_list_prompts : Session → Except PyErr (ListPromptsResult Prompt)
  session_get_prompt : Session → String → PyDict → Except PyErr (GetPromptResult Message)

section Ops

variable {Tool ToolResult Prompt Message : Type}

/-- The message of the façade's not-connected `RuntimeError`. -/
def notConnectedMsg : String :=
  "Client not connected. Use async context manager or call connect() first."

/-- `MCPClient.connect`: builds `StdioServerParameters(command="python",
args=[self.server_script_path])`, stores the stdio client, assigns
`self.session` from the transport's `__aenter__`, then awaits
`self.session.initialize()`.  Each assignment happens before the next await,
so a failing await leaves the assignments already made in place. -/
def connect (env : Env Tool ToolResult Prompt Message) (s : MCPClient) :
    Except PyErr Unit × MCPClient × List ExtCall :=
  let server_params : StdioServerParameters :=
    { command := "python", args := [s.server_script_path] }
  let c := env.new_stdio_client server_params
  let s1 := { s with _stdio_client := some c }
  match env.stdio_aenter with
  | Except.error e => (Except.error e, s1, [ExtCall.stdioEnter c])
  | Except.ok sess =>
    let s2 := { s1 with session := some sess }
    match env.session_init sess with
    | Except.error e => (Except.error e, s2, [ExtCall.stdioEnter c, ExtCall.initCall sess])
    | Except.ok _ => (Except.ok (), s2, [ExtCall.stdioEnter c, ExtCall.initCall sess])

/-- `MCPClient.cleanup`: if `self._stdio_client` is set, awaits its
`__aexit__(None, None, None)`; only then clears both fields.  An exception
from `__aexit__` propagates before the clearing assignments run. -/
def cleanup (env : Env Tool ToolResult Prompt Message) (s : MCPClient) :
    Except PyErr Unit × MCPClient × List ExtCall :=
  match s._stdio_client with
  | some c =>
    match env.stdio_aexit c with
    | Except.error e => (Except.error e, s, [ExtCall.stdioExit c])
    | Except.ok _ =>
      (Except.ok (), { s with session := none, _stdio_client := none }, [ExtCall.stdioExit c])
  | none =>
    (Except.ok (), { s with session := none, _stdio_client := none }, [])

/-- `MCPClient.list_tools`: not-connected guard, then returns
`(await self.session.list_tools()).tools` verbatim. -/
def list_tools (env : Env Tool ToolResult Prompt Message) (s : MCPClient) :
    Except PyErr (List Tool) × MCPClient × List ExtCall :=
  match s.session with
  | none => (Except.error (PyErr.runtimeError notConnectedMsg), s, [])
  | some sess =>
    match env.session_list_tools sess with
    | Except.error e => (Except.error e, s, [ExtCall.listToolsCall sess])
    | Except.ok result => (Except.ok result.tools, s, [ExtCall.listToolsCall sess])

/-- `MCPClient.call_tool`: not-connected guard, then returns the raw result
of `await self.session.call_tool(tool_name, tool_input)`. -/
def call_tool (env : Env Tool ToolResult Prompt Message) (s : MCPClient)
    (tool_name : String) (tool_input : PyDict) :
    Except PyErr ToolResult × MCPClient × List ExtCall :=
  match s.session with
  | none => (Except.error (PyErr.runtimeError notConnectedMsg), s, [])
  | some sess =>
    match env.session_call_tool sess tool_name tool_input with
    | Except.error e => (Except.error e, s, [ExtCall.callToolCall sess tool_name tool_input])
    | Except.ok result => (Except.ok result, s, [ExtCall.callToolCall sess tool_name tool_input])

/-- `MCPClient.read_resource`: not-connected guard, delegates to
`self.session.read_resource(AnyUrl(uri))` (URI validation lives in the
external pydantic layer), takes `result.contents[0]` — an `IndexError` when
the list is empty — and decodes by MIME type: `json.loads(resource.text)`
when `mime_type == "application/json"`, otherwise the raw `resource.text`. -/
def read_resource (env : Env Tool ToolResult Prompt Message) (s : MCPClient)
    (uri : String) : Except PyErr Json × MCPClient × List ExtCall :=
  match s.session with
  | none => (Except.error (PyErr.runtimeError notConnectedMsg), s, [])
  | some sess =>
    match env.session_read_resource sess uri with
    | Except.error e => (Except.error e, s, [ExtCall.readResourceCall sess uri])
    | Except.ok result =>
      match result.contents with
      | [] => (Except.error (PyErr.indexError "list index out of range"), s,
               [ExtCall.readResourceCall sess uri])
      | resource :: _ =>
        if resource.mime_type = "application/json" then
          (jsonLoads resource.text, s, [ExtCall.readResourceCall sess uri])
        else
          (Except.ok (Json.str resource.text), s, [ExtCall.readResourceCall sess uri])

/-- `MCPClient.list_prompts`: not-connected guard, then returns
`(await self.session.list_prompts()).prompts` verbatim. -/
def list_prompts (env : Env Tool ToolResult Prompt Message) (s : MCPClient) :
    Except PyErr (List Prompt) × MCPClient × List ExtCall :=
  match s.session with
  | none => (Except.error (PyErr.runtimeError notConnectedMsg), s, [])
  | some sess =>
    match env.session_list_prompts sess with
    | Except.error e => (Except.error e, s, [ExtCall.listPromptsCall sess])
    | Except.ok result => (Except.ok result.prompts, s, [ExtCall.listPromptsCall sess])

/-- `MCPClient.get_prompt`: not-connected guard, `arguments = {}` when the
optional parameter is `None`, then returns
`(await self.session.get_prompt(prompt_name, arguments)).messages`. -/
def get_prompt (env : Env Tool ToolResult Prompt Message) (s : MCPClient)
    (prompt_name : String) (arguments : Option PyDict) :
    Except PyErr (List Message) × MCPClient × List ExtCall :=
  match s.session with
  | none => (Except.error (PyErr.runtimeError notConnectedMsg), s, [])
  | some sess =>
    let args := match arguments with
      | none => []
      | some a => a
    match env.session_get_prompt sess prompt_name args with
    | Except.error e => (Except.error e, s, [ExtCall.getPromptCall sess prompt_name args])
    | Except.ok result =>
      (Except.ok result.messages, s, [ExtCall.getPromptCall sess prompt_name args])

/-- `async with MCPClient(...) as client: body` — `__aenter__` runs
`connect` and hands the façade to the body; `__aexit__` runs `cleanup` on
every exit path after a successful entry (normal completion or an exception
in the body); an exception in `connect` itself propagates without running
`cleanup`.  `__aexit__` returns `None`, so a body exception propagates once
cleanup has completed. -/
def asyncWith {β : Type} (envC envX : Env Tool ToolResult Prompt Message)
    (s : MCPClient)
    (body : MCPClient → Except PyErr β × MCPClient × List ExtCall) :
    Except PyErr β × MCPClient × List ExtCall :=
  match connect envC s with
  | (Except.error e, s1, t1) => (Except.error e, s1, t1)
  | (Except.ok _, s1, t1) =>
    let b := body s1
    match cleanup envX b.2.1 with
    | (Except.error e, s2, t3) => (Except.error e, s2, t1 ++ b.2.2 ++ t3)
    | (Except.ok _, s2, t3) => (b.1, s2, t1 ++ b.2.2 ++ t3)

end Ops

/-- A concrete external environment for instantiating the theorems: session
id 1, fresh transport handle 7, three tools, two prompts, one JSON resource. -/
def envEx : Env Nat Nat Nat Nat where
  new_stdio_client := fun _ => 7
  stdio_aenter := Except.ok 1
  stdio_aexit := fun _ => Except.ok ()
  session_init := fun _ => Except.ok ()
  session_list_tools := fun _ => Except.ok ⟨[10, 11, 12]⟩
  session_call_tool := fun _ _ _ => Except.ok 0
  session_read_resource := fun _ _ => Except.ok ⟨[⟨"application/json", "\x7b\"a\":1\x7d"⟩]⟩
  session_list_prompts := fun _ => Except.ok ⟨[20, 21]⟩
  session_get_prompt := fun _ _ _ => Except.ok ⟨[30]⟩

/-- Like `envEx` but the resource is plain text. -/
def envText : Env Nat Nat Nat Nat :=
  { envEx with session_read_resource := fun _ _ => Except.ok ⟨[⟨"text/plain", "hello"⟩]⟩ }

/-- Like `envEx` but the resource read returns an empty content list. -/
def envEmpty : Env Nat Nat Nat Nat :=
  { envEx with session_read_resource := fun _ _ => Except.ok ⟨[]⟩ }

/-- Like `envEx` but closing the transport raises. -/
def envBad : Env Nat Nat Nat Nat :=
  { envEx with stdio_aexit := fun _ => Except.error (PyErr.extError "close failed") }

/-- A façade state holding a live session 1 over transport handle 5. -/
def clientConn : MCPClient :=
  { server_script_path := "mcp_server.py", session := some 1, _stdio_client := some 5 }

/-- The façade state produced by a successful `connect` in environment
`env` starting from `s`, with session `sess`. -/
def connectedState {Tool ToolResult Prompt Message : Type}
    (env : Env Tool ToolResult Prompt Message) (s : MCPClient) (sess : Session) :
    MCPClient :=
  { s with
    _stdio_client := some (env.new_stdio_client
      { command := "python", args := [s.server_script_path] }),
    session := some sess }

/-- The transport calls `cleanup` makes from state `s`: one close when a
handle is present, none otherwise. -/
def closeTrace (s : MCPClient) : List ExtCall :=
  match s._stdio_client with
  | some c => [ExtCall.stdioExit c]
  | none => []

section Theorems

variable {Tool ToolResult Prompt Message : Type}

/-- Claim C1: while the session field is unset, each of the five data-access
operations returns the not-connected `RuntimeError`, leaves the state
unchanged, and makes no call on the external client session (empty trace). -/
theorem not_connected_rejects_all_ops (env : Env Tool ToolResult Prompt Message)
    (s : MCPClient) (tool_name uri prompt_name : String) (tool_input : PyDict)
    (arguments : Option PyDict) (h : s.session = none) :
    list_tools env s = (Except.error (PyErr.runtimeError notConnectedMsg), s, []) ∧
    call_tool env s tool_name tool_input =
      (Except.error (PyErr.runtimeError notConnectedMsg), s, []) ∧
    read_resource env s uri = (Except.error (PyErr.runtimeError notConnectedMsg), s, []) ∧
    list_prompts env s = (Except.error (PyErr.runtimeError notConnectedMsg), s, []) ∧
    get_prompt env s prompt_name arguments =
      (Except.error (PyErr.runtimeError notConnectedMsg), s, []) := by
  refine ⟨?_, ?_, ?_, ?_, ?_⟩ <;>
    simp [list_tools, call_tool, read_resource, list_prompts, get_prompt, h]

/-- Closed instance of the C1 theorem on a freshly constructed façade. -/
theorem not_connected_rejects_all_ops_witness :
    list_tools envEx (MCPClient.new "mcp_server.py") =
      (Except.error (PyErr.runtimeError notConnectedMsg), MCPClient.new "mcp_server.py", []) ∧
    call_tool envEx (MCPClient.new "mcp_server.py") "read_doc_contents" [] =
      (Except.error (PyErr.runtimeError notConnectedMsg), MCPClient.new "mcp_server.py", []) ∧
    read_resource envEx (MCPClient.new "mcp_server.py") "docs://documents" =
      (Except.error (PyErr.runtimeError notConnectedMsg), MCPClient.new "mcp_server.py", []) ∧
    list_prompts envEx (MCPClient.new "mcp_server.py") =
      (Except.error (PyErr.runtimeError notConnectedMsg), MCPClient.new "mcp_server.py", []) ∧
    get_prompt envEx (MCPClient.new "mcp_server.py") "summarize" none =
      (Except.error (PyErr.runtimeError notConnectedMsg), MCPClient.new "mcp_server.py", []) :=
  not_connected_rejects_all_ops envEx (MCPClient.new "mcp_server.py")
    "read_doc_contents" "docs://documents" "summarize" [] none rfl

/-- Claim C2: on a connected façade, `read_resource` takes the first element
of a non-empty content list and dispatches on its MIME type: exactly
`"application/json"` means the text is decoded by `json.loads`, anything
else returns the raw text unchanged. -/
theorem read_resource_mime_dispatch (env : Env Tool ToolResult Prompt Message)
    (s : MCPClient) (uri : String) (sess : Session) (item : ResourceContent)
    (rest : List ResourceContent) (hs : s.session = some sess)
    (hr : env.session_read_resource sess uri = Except.ok ⟨item :: rest⟩) :
    read_resource env s uri =
      ((if item.mime_type = "application/json" then jsonLoads item.text
        else Except.ok (Json.str item.text)), s, [ExtCall.readResourceCall sess uri]) := by
  simp only [read_resource, hs, hr]
  split <;> rfl

/-- Closed instance of the C2 theorem: a single `application/json` element
with text `\x7b"a":1\x7d` yields the structured value, and a single
`text/plain` element with text `hello` yields the literal string. -/
theorem read_resource_mime_dispatch_witness :
    read_resource envEx clientConn "docs://documents" =
      (Except.ok (Json.obj [("a", Json.num 1)]), clientConn,
       [ExtCall.readResourceCall 1 "docs://documents"]) ∧
    read_resource envText clientConn "docs://documents" =
      (Except.ok (Json.str "hello"), clientConn,
       [ExtCall.readResourceCall 1 "docs://documents"]) :=
  ⟨(read_resource_mime_dispatch envEx clientConn "docs://documents" 1
      ⟨"application/json", "\x7b\"a\":1\x7d"⟩ [] rfl rfl).trans rfl,
   (read_resource_mime_dispatch envText clientConn "docs://documents" 1
      ⟨"text/plain", "hello"⟩ [] rfl rfl).trans rfl⟩

/-- Claim C3: on a connected façade, `read_resource` over a response with an
empty content list fails with the `IndexError` from `result.contents[0]`
rather than returning a default value. -/
theorem read_resource_empty_contents (env : Env Tool ToolResult Prompt Message)
    (s : MCPClient) (uri : String) (sess : Session) (hs : s.session = some sess)
    (hr : env.session_read_resource sess uri = Except.ok ⟨[]⟩) :
    read_resource env s uri =
      (Except.error (PyErr.indexError "list index out of range"), s,
       [ExtCall.readResourceCall sess uri]) := by
  simp [read_resource, hs, hr]

/-- Closed instance of the C3 theorem. -/
theorem read_resource_empty_contents_witness :
    read_resource envEmpty clientConn "docs://documents" =
      (Except.error (PyErr.indexError "list index out of range"), clientConn,
       [ExtCall.readResourceCall 1 "docs://documents"]) :=
  read_resource_empty_contents envEmpty clientConn "docs://documents" 1 rfl rfl

/-- Claim C4, counterexample: when the transport's close raises, `cleanup`
does NOT clear the fields — the exception propagates before the clearing
assignments run, so the session and handle stay set. -/
theorem cleanup_failing_close_counterexample :
    (cleanup envBad clientConn).1 = Except.error (PyErr.extError "close failed") ∧
    (cleanup envBad clientConn).2.1.session = some 1 ∧
    (cleanup envBad clientConn).2.1._stdio_client = some 5 :=
  ⟨rfl, rfl, rfl⟩

/-- Claim C4, amended: `cleanup` closes the transport exactly when a handle
exists; both fields are cleared when the close succeeds or when no handle
exists, while a failing close propagates its error and leaves both fields
unchanged. -/
theorem cleanup_spec (env : Env Tool ToolResult Prompt Message) (s : MCPClient) :
    (∀ c, s._stdio_client = some c →
      (env.stdio_aexit c = Except.ok () →
        cleanup env s =
          (Except.ok (), { s with session := none, _stdio_client := none },
           [ExtCall.stdioExit c])) ∧
      (∀ e, env.stdio_aexit c = Except.error e →
        cleanup env s = (Except.error e, s, [ExtCall.stdioExit c]))) ∧
    (s._stdio_client = none →
      cleanup env s =
        (Except.ok (), { s with session := none, _stdio_client := none }, [])) := by
  refine ⟨fun c hc => ⟨fun hok => ?_, fun e he => ?_⟩, fun hn => ?_⟩
  · simp [cleanup, hc, hok]
  · simp [cleanup, hc, he]
  · simp [cleanup, hn]

/-- Closed instance of the C4 theorem on both a succeeding and a failing
transport close. -/
theorem cleanup_spec_witness :
    cleanup envEx clientConn =
      (Except.ok (), { clientConn with session := none, _stdio_client := none },
       [ExtCall.stdioExit 5]) ∧
    cleanup envBad clientConn =
      (Except.error (PyErr.extError "close failed"), clientConn, [ExtCall.stdioExit 5]) :=
  ⟨((cleanup_spec envEx clientConn).1 5 rfl).1 rfl,
   ((cleanup_spec envBad clientConn).1 5 rfl).2 (PyErr.extError "close failed") rfl⟩

/-- Claim C5, counterexample: when the transport close raises on scope exit,
the exception aborts `cleanup` before the clearing assignments, so after the
scope both fields are still set and the close error propagates. -/
theorem scoped_failing_close_counterexample :
    (asyncWith envEx envBad (MCPClient.new "mcp_server.py")
      (fun s => (Except.ok (0 : Nat), s, []))).2.1.session = some 1 ∧
    (asyncWith envEx envBad (MCPClient.new "mcp_server.py")
      (fun s => (Except.ok (0 : Nat), s, []))).2.1._stdio_client = some 7 ∧
    (asyncWith envEx envBad (MCPClient.new "mcp_server.py")
      (fun s => (Except.ok (0 : Nat), s, []))).1 =
      Except.error (PyErr.extError "close failed") :=
  ⟨rfl, rfl, rfl⟩

/-- Claim C5, amended: entering the scope runs `connect` and hands the façade
to the body; exiting runs `cleanup` exactly once whether the body completes
normally or raises, and — provided the transport close does not itself
raise — both fields are unset afterwards and the body's outcome is
returned. -/
theorem scoped_spec (envC envX : Env Tool ToolResult Prompt Message)
    (s : MCPClient) {β : Type}
    (body : MCPClient → Except PyErr β × MCPClient × List ExtCall)
    (sess : Session)
    (hae : envC.stdio_aenter = Except.ok sess)
    (hinit : envC.session_init sess = Except.ok ())
    (hexit : ∀ c, envX.stdio_aexit c = Except.ok ()) :
    asyncWith envC envX s body =
      ((body (connectedState envC s sess)).1,
       { (body (connectedState envC s sess)).2.1 with
           session := none, _stdio_client := none },
       [ExtCall.stdioEnter (envC.new_stdio_client
          { command := "python", args := [s.server_script_path] }),
        ExtCall.initCall sess] ++ (body (connectedState envC s sess)).2.2 ++
         closeTrace (body (connectedState envC s sess)).2.1) := by
  have hconn : connect envC s =
      (Except.ok (), connectedState envC s sess,
       [ExtCall.stdioEnter (envC.new_stdio_client
          { command := "python", args := [s.server_script_path] }),
        ExtCall.initCall sess]) := by
    simp [connect, hae, hinit, connectedState]
  simp only [asyncWith, hconn]
  cases hsc : (body (connectedState envC s sess)).2.1._stdio_client with
  | none => simp [cleanup, hsc, closeTrace]
  | some c2 => simp [cleanup, hsc, hexit c2, closeTrace]

/-- Closed instance of the C5 theorem: one scope whose body completes
normally and one whose body raises; both exits clear the state and close the
transport once. -/
theorem scoped_spec_witness :
    asyncWith envEx envEx (MCPClient.new "mcp_server.py")
      (fun s => (Except.ok (0 : Nat), s, [])) =
      (Except.ok 0, MCPClient.new "mcp_server.py",
       [ExtCall.stdioEnter 7, ExtCall.initCall 1, ExtCall.stdioExit 7]) ∧
    asyncWith envEx envEx (MCPClient.new "mcp_server.py")
      (fun s => ((Except.error (PyErr.extError "boom") : Except PyErr Nat), s, [])) =
      (Except.error (PyErr.extError "boom"), MCPClient.new "mcp_server.py",
       [ExtCall.stdioEnter 7, ExtCall.initCall 1, ExtCall.stdioExit 7]) :=
  ⟨(scoped_spec envEx envEx (MCPClient.new "mcp_server.py")
      (fun s => (Except.ok (0 : Nat), s, [])) 1 rfl rfl (fun _ => rfl)).trans rfl,
   (scoped_spec envEx envEx (MCPClient.new "mcp_server.py")
      (fun s => ((Except.error (PyErr.extError "boom") : Except PyErr Nat), s, []))
      1 rfl rfl (fun _ => rfl)).trans rfl⟩

/-- Claim C6: on a connected façade, `get_prompt` with the `arguments`
parameter omitted (`None`) behaves identically to `get_prompt` with an
explicit empty mapping, and the call placed on the external session carries
the empty mapping. -/
theorem get_prompt_default_args (env : Env Tool ToolResult Prompt Message)
    (s : MCPClient) (prompt_name : String) (sess : Session)
    (hs : s.session = some sess) :
    get_prompt env s prompt_name none = get_prompt env s prompt_name (some []) ∧
    (get_prompt env s prompt_name none).2.2 =
      [ExtCall.getPromptCall sess prompt_name []] := by
  constructor
  · rfl
  · simp only [get_prompt, hs]
    split <;> rfl

/-- Closed instance of the C6 theorem. -/
theorem get_prompt_default_args_witness :
    get_prompt envEx clientConn "summarize" none =
      get_prompt envEx clientConn "summarize" (some []) ∧
    (get_prompt envEx clientConn "summarize" none).2.2 =
      [ExtCall.getPromptCall 1 "summarize" []] :=
  get_prompt_default_args envEx clientConn "summarize" 1 rfl

/-- Claim C7: on a connected façade, `list_tools` returns the listing
response's `tools` field verbatim and `list_prompts` its `prompts` field
verbatim — same list value, hence same order and item count, items
unmodified. -/
theorem list_fields_verbatim (env : Env Tool ToolResult Prompt Message)
    (s : MCPClient) (sess : Session) (rt : ListToolsResult Tool)
    (rp : ListPromptsResult Prompt) (hs : s.session = some sess)
    (ht : env.session_list_tools sess = Except.ok rt)
    (hp : env.session_list_prompts sess = Except.ok rp) :
    list_tools env s = (Except.ok rt.tools, s, [ExtCall.listToolsCall sess]) ∧
    list_prompts env s = (Except.ok rp.prompts, s, [ExtCall.listPromptsCall sess]) := by
  constructor
  · simp [list_tools, hs, ht]
  · simp [list_prompts, hs, hp]

/-- Closed instance of the C7 theorem: three advertised tools yield exactly
those three descriptors in order, two prompts likewise. -/
theorem list_fields_verbatim_witness :
    list_tools envEx clientConn =
      (Except.ok [10, 11, 12], clientConn, [ExtCall.listToolsCall 1]) ∧
    list_prompts envEx clientConn =
      (Except.ok [20, 21], clientConn, [ExtCall.listPromptsCall 1]) :=
  list_fields_verbatim envEx clientConn 1 ⟨[10, 11, 12]⟩ ⟨[20, 21]⟩ rfl rfl rfl

/-- Claim C8: when the transport close succeeds, `cleanup` leaves both
fields unset, and a second `cleanup` immediately after — or on any façade
whose handle is already unset — raises nothing, makes no external call, and
leaves the state unchanged with both fields unset. -/
theorem cleanup_idempotent (env1 env2 : Env Tool ToolResult Prompt Message)
    (s : MCPClient) (hexit : ∀ c, env1.stdio_aexit c = Except.ok ()) :
    (cleanup env1 s).1 = Except.ok () ∧
    (cleanup env1 s).2.1.session = none ∧
    (cleanup env1 s).2.1._stdio_client = none ∧
    cleanup env2 (cleanup env1 s).2.1 =
      (Except.ok (), (cleanup env1 s).2.1, []) := by
  cases hc : s._stdio_client with
  | none => refine ⟨?_, ?_, ?_, ?_⟩ <;> simp [cleanup, hc]
  | some c => refine ⟨?_, ?_, ?_, ?_⟩ <;> simp [cleanup, hc, hexit c]

/-- Closed instance of the C8 theorem: double close starting from a
connected façade. -/
theorem cleanup_idempotent_witness :
    (cleanup envEx clientConn).1 = Except.ok () ∧
    (cleanup envEx clientConn).2.1.session = none ∧
    (cleanup envEx clientConn).2.1._stdio_client = none ∧
    cleanup envEx (cleanup envEx clientConn).2.1 =
      (Except.ok (), (cleanup envEx clientConn).2.1, []) :=
  cleanup_idempotent envEx envEx clientConn (fun _ => rfl)

/-- Claim C9: `connect` on an already-connected façade overwrites both
fields with the new connection and never closes the prior transport handle:
no close call appears in its trace, so the prior connection leaks. -/
theorem connect_overwrites_and_leaks (env : Env Tool ToolResult Prompt Message)
    (s : MCPClient) (c0 : StdioClient) (sess0 sess1 : Session)
    (_hc : s._stdio_client = some c0) (_hs : s.session = some sess0)
    (hae : env.stdio_aenter = Except.ok sess1)
    (hinit : env.session_init sess1 = Except.ok ()) :
    connect env s =
      (Except.ok (),
       { s with
           session := some sess1,
           _stdio_client := some (env.new_stdio_client
             { command := "python", args := [s.server_script_path] }) },
       [ExtCall.stdioEnter (env.new_stdio_client
          { command := "python", args := [s.server_script_path] }),
        ExtCall.initCall sess1]) ∧
    ExtCall.stdioExit c0 ∉ (connect env s).2.2 := by
  have h : connect env s =
      (Except.ok (),
       { s with
           session := some sess1,
           _stdio_client := some (env.new_stdio_client
             { command := "python", args := [s.server_script_path] }) },
       [ExtCall.stdioEnter (env.new_stdio_client
          { command := "python", args := [s.server_script_path] }),
        ExtCall.initCall sess1]) := by
    simp [connect, hae, hinit]
  refine ⟨h, ?_⟩
  rw [h]
  simp

/-- Closed instance of the C9 theorem: reconnecting over live handle 5 and
session 1 installs new handle 7 and session 1 without closing handle 5. -/
theorem connect_overwrites_and_leaks_witness :
    connect envEx clientConn =
      (Except.ok (),
       { clientConn with session := some 1, _stdio_client := some 7 },
       [ExtCall.stdioEnter 7, ExtCall.initCall 1]) ∧
    ExtCall.stdioExit 5 ∉ (connect envEx clientConn).2.2 := by
  have h := connect_overwrites_and_leaks envEx clientConn 5 1 1 rfl rfl rfl rfl
  exact ⟨h.1.trans rfl, h.2⟩

/-- Claim C10: each of the five data-access operations returns the façade
state unchanged — session, transport handle and stored server script path
are exactly as before the call; only `connect` and `cleanup` write these
fields. -/
theorem data_ops_preserve_state (env : Env Tool ToolResult Prompt Message)
    (s : MCPClient) (tool_name uri prompt_name : String) (tool_input : PyDict)
    (arguments : Option PyDict) :
    (list_tools env s).2.1 = s ∧
    (call_tool env s tool_name tool_input).2.1 = s ∧
    (read_resource env s uri).2.1 = s ∧
    (list_prompts env s).2.1 = s ∧
    (get_prompt env s prompt_name arguments).2.1 = s := by
  refine ⟨?_, ?_, ?_, ?_, ?_⟩
  · cases hs : s.session with
    | none => simp [list_tools, hs]
    | some sess =>
      rcases ht : env.session_list_tools sess with e | r <;> simp [list_tools, hs, ht]
  · cases hs : s.session with
    | none => simp [call_tool, hs]
    | some sess =>
      rcases ht : env.session_call_tool sess tool_name tool_input with e | r <;>
        simp [call_tool, hs, ht]
  · cases hs : s.session with
    | none => simp [read_resource, hs]
    | some sess =>
      rcases hr : env.session_read_resource sess uri with e | r
      · simp [read_resource, hs, hr]
      · rcases r with ⟨contents⟩
        cases contents with
        | nil => simp [read_resource, hs, hr]
        | cons item rest =>
          by_cases hm : item.mime_type = "application/json" <;>
            simp [read_resource, hs, hr, hm]
  · cases hs : s.session with
    | none => simp [list_prompts, hs]
    | some sess =>
      rcases hp : env.session_list_prompts sess with e | r <;>
        simp [list_prompts, hs, hp]
  · cases hs : s.session with
    | none => simp [get_prompt, hs]
    | some sess =>
      rcases hg : env.session_get_prompt sess prompt_name
          (match arguments with | none => [] | some a => a) with e | r <;>
        simp [get_prompt, hs, hg]

end Theorems
